import Mathlib

/-!
Verification of the CodeBoost-AI frontend (`src/pages/Index.tsx`, together
with `IssuesPanel`).  The React component is embedded shallowly: the
component state becomes an explicit `AppState` record, each event handler
becomes a pure function from the state (plus the outcome of any `fetch`
call, passed in as an `Option`) to the new state together with the
observable effects (toasts shown and HTTP requests issued).
-/

set_option maxHeartbeats 1000000
set_option linter.unnecessarySeqFocus false

namespace CodeBoost

/-! ## JavaScript string primitives

`String.prototype.trim`, `toLowerCase` (restricted to ASCII letters, which
is all the detector's markers use) and `includes`, modelled over the
character list of a Lean `String`. -/

/-- Whitespace as stripped by `String.prototype.trim` (the ASCII part). -/
def jsWhitespace (c : Char) : Bool :=
  c == ' ' || c == '\t' || c == '\n' || c == '\r' || c == '\x0b' || c == '\x0c'

/-- `s.trim()`: leading and trailing whitespace removed. -/
def jsTrim (s : String) : String :=
  ⟨((s.data.dropWhile jsWhitespace).reverse.dropWhile jsWhitespace).reverse⟩

/-- `s.toLowerCase()` on ASCII letters. -/
def jsToLower (s : String) : String :=
  ⟨s.data.map Char.toLower⟩

/-- Does `pat` occur at the very start of `l`? -/
def leadsWith : List Char → List Char → Bool
  | [], _ => true
  | _ :: _, [] => false
  | a :: as, b :: bs => a == b && leadsWith as bs

/-- Does `pat` occur somewhere in `l`? -/
def occursIn (pat : List Char) : List Char → Bool
  | [] => leadsWith pat []
  | c :: rest => leadsWith pat (c :: rest) || occursIn pat rest

/-- `s.includes(pat)`. -/
def jsIncludes (s pat : String) : Bool :=
  occursIn pat.data s.data

/-- `s.charAt(0).toUpperCase() + s.slice(1)`. -/
def capitalizeFirst (s : String) : String :=
  match s.data with
  | [] => ""
  | c :: rest => ⟨c.toUpper :: rest⟩

/-! ## Data model (the TypeScript types of `Index.tsx`) -/

inductive Severity
  | Critical
  | Major
  | Minor
deriving DecidableEq, Repr

structure Issue where
  line : Nat
  type : String
  severity : Severity
  message : String
  suggestion : String
deriving DecidableEq, Repr

structure Metrics where
  cyclomaticComplexity : Nat
  readabilityScore : Nat
  styleAdherence : Nat
deriving DecidableEq, Repr

structure AnalyzeResponse where
  codeQualityScore : Nat
  issues : List Issue
  metrics : Metrics
  language : String
  analyzedAt : String
  code : String
deriving DecidableEq, Repr

/-- `HistoryItem = AnalyzeResponse & \x7b id: string \x7d`. -/
structure HistoryItem where
  id : String
  resp : AnalyzeResponse
deriving DecidableEq, Repr

/-- Body of a successful `/api/fix` response. -/
structure FixResponse where
  fixedCode : String
  changes : List String
  source : String
  language : String
deriving DecidableEq, Repr

/-- The `useState` hooks of the `Index` component. -/
structure AppState where
  code : String
  language : String
  isAnalyzing : Bool
  isFixing : Bool
  analysisResult : Option AnalyzeResponse
  scrollToLine : Option Nat
  history : List HistoryItem
deriving DecidableEq, Repr

/-- A `toast` notification shown to the user. -/
inductive Toast
  | info (msg : String)
  | success (msg : String)
  | error (msg : String)
deriving DecidableEq, Repr

/-- The JSON body of a POST to `/api/analyze` or `/api/fix`. -/
structure ApiRequest where
  code : String
  language : String
deriving DecidableEq, Repr

/-- Observable effects of one handler invocation. -/
structure Effects where
  toasts : List Toast
  analyzeRequests : List ApiRequest
  fixRequests : List ApiRequest
deriving DecidableEq, Repr

/-- The `defaultCode` template literal of `Index.tsx`. -/
def defaultCode : String :=
  "// Paste your code here and it will auto-detect the language!\n// Examples:\n// JavaScript: function hello() \x7b console.log(\"world\"); \x7d\n// Python: def hello(): print(\"world\")\n// Java: public class Hello \x7b public static void main(String[] args) \x7b System.out.println(\"world\"); \x7d \x7d\n// C++: #include <iostream> using namespace std; int main() \x7b cout << \"world\"; return 0; \x7d\n// C: #include <stdio.h> int main() \x7b printf(\"world\"); return 0; \x7d\n// TypeScript: interface User \x7b name: string; \x7d"

/-- The initial component state (`useState` initial values). -/
def initState : AppState :=
  { code := defaultCode
    language := "auto"
    isAnalyzing := false
    isFixing := false
    analysisResult := none
    scrollToLine := none
    history := [] }

/-! ## Language auto-detection (`handleCodeChange`) -/

def pythonMarker (c : String) : Bool :=
  jsIncludes c "def " || jsIncludes c "import " || jsIncludes c "print("

def javaMarker (c : String) : Bool :=
  jsIncludes c "public class" || jsIncludes c "system.out.println" ||
    jsIncludes c "import java."

def cppMarker (c : String) : Bool :=
  jsIncludes c "using namespace" || jsIncludes c "std::" ||
    (jsIncludes c "#include" && jsIncludes c "iostream")

def cMarker (c : String) : Bool :=
  jsIncludes c "#include" &&
    (jsIncludes c "stdio.h" || jsIncludes c "stdlib.h" || jsIncludes c "string.h")

def typescriptMarker (c : String) : Bool :=
  jsIncludes c "interface " || jsIncludes c "type " ||
    jsIncludes c ": string" || jsIncludes c "array<"

def javascriptMarker (c : String) : Bool :=
  jsIncludes c "function " || jsIncludes c "=>" ||
    jsIncludes c "console.log" || jsIncludes c "const "

/-- The if/else-if chain of `handleCodeChange`, applied to the already
trimmed and lowercased code; `""` means no language was detected. -/
def detectLanguage (c : String) : String :=
  if pythonMarker c then "python"
  else if javaMarker c then "java"
  else if cppMarker c then "cpp"
  else if cMarker c then "c"
  else if typescriptMarker c then "typescript"
  else if javascriptMarker c then "javascript"
  else ""

/-- The same detection rules as an ordered priority table. -/
def languageMarkers : List (String × (String → Bool)) :=
  [("python", pythonMarker), ("java", javaMarker), ("cpp", cppMarker),
   ("c", cMarker), ("typescript", typescriptMarker),
   ("javascript", javascriptMarker)]

/-- First language of `languageMarkers` whose marker matches. -/
def firstMatching (c : String) : String :=
  match languageMarkers.find? (fun p => p.2 c) with
  | some p => p.1
  | none => ""

/-- `handleCodeChange`: store the new code, and when the selected language
is `"auto"` and the trimmed text is non-empty, run client-side detection
and switch the language when something was detected. -/
def handleCodeChange (st : AppState) (newCode : String) : AppState × List Toast :=
  let st1 := { st with code := newCode }
  if st.language = "auto" ∧ jsTrim newCode ≠ "" then
    let detected := detectLanguage (jsToLower (jsTrim newCode))
    if detected ≠ "" ∧ detected ≠ st.language then
      ({ st1 with language := detected },
       [Toast.info ("Auto-detected: " ++ capitalizeFirst detected)])
    else (st1, [])
  else (st1, [])

/-! ## `handleAnalyze`

The single `await fetch("/api/analyze", ...)` is modelled by the `result`
argument: `some data` is an ok response whose JSON parsed to `data`, `none`
is a non-ok status or a response that could not be processed (either way
the `catch` block runs).  `freshId` stands for the `crypto.randomUUID()`
call. -/

def noEffects : Effects :=
  { toasts := [], analyzeRequests := [], fixRequests := [] }

def handleAnalyze (st : AppState) (overrideCode : Option String)
    (freshId : String) (result : Option AnalyzeResponse) : AppState × Effects :=
  let source := overrideCode.getD st.code
  let trimmed := jsTrim source
  if trimmed = "" then
    (st, { noEffects with
            toasts := [Toast.error "Please paste or type some code before analyzing."] })
  else
    let st1 := { st with isAnalyzing := true, scrollToLine := none }
    let req : ApiRequest := { code := trimmed, language := st.language }
    match result with
    | none =>
      ({ st1 with isAnalyzing := false },
       { noEffects with
          toasts := [Toast.info "Analyzing your code...",
                     Toast.error "Failed to analyze code"]
          analyzeRequests := [req] })
    | some data =>
      let st2 := { st1 with analysisResult := some data }
      let autoPair :=
        if st.language = "auto" ∧ data.language ≠ "auto" then
          ({ st2 with language := data.language },
           [Toast.success ("Auto-detected language: " ++ data.language)])
        else (st2, ([] : List Toast))
      let st3 := autoPair.1
      let st4 := { st3 with
                    history := (({ id := freshId, resp := data } : HistoryItem)
                                  :: st.history).take 10 }
      let errorCount := (data.issues.filter (fun i => i.type = "Error")).length
      let warningCount := (data.issues.filter (fun i => i.type = "Warning")).length
      let suggestionCount := (data.issues.filter (fun i => i.type = "Suggestion")).length
      let doneToast :=
        if errorCount = 0 then
          Toast.success ("Analysis complete! Score: " ++ toString data.codeQualityScore
            ++ "/100 (" ++ data.language ++ ") - No errors! 🎉")
        else
          Toast.success ("Analysis complete! Score: " ++ toString data.codeQualityScore
            ++ "/100 (" ++ data.language ++ ") - " ++ toString errorCount
            ++ " errors, " ++ toString warningCount ++ " warnings, "
            ++ toString suggestionCount ++ " suggestions")
      ({ st4 with isAnalyzing := false },
       { noEffects with
          toasts := [Toast.info "Analyzing your code..."] ++ autoPair.2 ++ [doneToast]
          analyzeRequests := [req] })

/-! ## `handleFix`

The two awaited calls are modelled by `fixResult` (the `/api/fix` fetch:
`some fr` for an ok response, `none` for a failure) and `analyzeResult`
(the outcome of the nested `handleAnalyze` fetch).  The `fixTimeoutRef`
timeout has an empty callback in the source, so it changes no state and is
not modelled. -/

def handleFix (st : AppState) (freshId : String) (fixResult : Option FixResponse)
    (analyzeResult : Option AnalyzeResponse) : AppState × Effects :=
  if st.isFixing then
    (st, { noEffects with toasts := [Toast.info "Fix already in progress..."] })
  else
    let trimmed := jsTrim st.code
    if trimmed = "" then
      (st, { noEffects with toasts := [Toast.error "Add some code first."] })
    else
      let st1 := { st with isFixing := true }
      let req : ApiRequest := { code := trimmed, language := st.language }
      match fixResult with
      | none =>
        ({ st1 with isFixing := false },
         { noEffects with
            toasts := [Toast.info "Applying AI fixes...",
                       Toast.error "Failed to apply fixes"]
            fixRequests := [req] })
      | some fr =>
        let st2 := { st1 with code := fr.fixedCode }
        let fixToast :=
          if fr.changes.length ≠ 0 ∧
              ¬(fr.changes.length = 1 ∧ fr.changes.headD "" = "No changes") then
            Toast.success ("Fixed with " ++ fr.source ++ ": "
              ++ String.intercalate ", " fr.changes)
          else Toast.info "No fixes needed."
        let inner := handleAnalyze st2 (some fr.fixedCode) freshId analyzeResult
        ({ inner.1 with isFixing := false },
         { toasts := [Toast.info "Applying AI fixes...", fixToast] ++ inner.2.toasts
           analyzeRequests := inner.2.analyzeRequests
           fixRequests := [req] })

/-! ## `handleReset` and loading a history entry -/

def handleReset (st : AppState) : AppState × List Toast :=
  ({ st with code := defaultCode, analysisResult := none, scrollToLine := none },
   [Toast.info "Code reset to default"])

/-- The `onClick` of a history row: `setAnalysisResult(h)`. -/
def loadHistoryItem (st : AppState) (h : HistoryItem) : AppState :=
  { st with analysisResult := some h.resp }

/-! ## `IssuesPanel` -/

/-- The panel filter: `"All" | "Critical" | "Major" | "Minor"`. -/
inductive IssueFilter
  | all
  | sev (s : Severity)
deriving DecidableEq, Repr

/-- `issues.filter(i => filter === "All" ? true : i.severity === filter)`. -/
def visibleIssues (f : IssueFilter) (issues : List Issue) : List Issue :=
  issues.filter (fun i =>
    match f with
    | .all => true
    | .sev s => i.severity == s)

/-- The two counts of the panel header `Issues Found (visible/total)`. -/
def issuesHeaderCounts (f : IssueFilter) (issues : List Issue) : Nat × Nat :=
  ((visibleIssues f issues).length, issues.length)

/-! ## Theorems -/

/-- C1: for every input whose lowercased trimmed text contains
`"console.log"` and none of the markers of a higher-priority language
(Python, Java, C++, C, TypeScript), `handleCodeChange` run while the
selected language is `"auto"` and the trimmed input is non-empty detects
the language `"javascript"`. -/
theorem C1_detects_javascript (st : AppState) (s : String)
    (hauto : st.language = "auto")
    (hne : jsTrim s ≠ "")
    (hjs : jsIncludes (jsToLower (jsTrim s)) "console.log" = true)
    (hpy : pythonMarker (jsToLower (jsTrim s)) = false)
    (hjava : javaMarker (jsToLower (jsTrim s)) = false)
    (hcpp : cppMarker (jsToLower (jsTrim s)) = false)
    (hc : cMarker (jsToLower (jsTrim s)) = false)
    (hts : typescriptMarker (jsToLower (jsTrim s)) = false) :
    (handleCodeChange st s).1.language = "javascript" ∧
    (handleCodeChange st s).2 = [Toast.info "Auto-detected: Javascript"] := by
  have hjm : javascriptMarker (jsToLower (jsTrim s)) = true := by
    unfold javascriptMarker
    rw [hjs]
    simp
  have hdet : detectLanguage (jsToLower (jsTrim s)) = "javascript" := by
    unfold detectLanguage
    rw [hpy, hjava, hcpp, hc, hts, hjm]
    simp
  unfold handleCodeChange
  rw [if_pos ⟨hauto, hne⟩, hdet, hauto]
  rw [if_pos (by decide : ("javascript" : String) ≠ "" ∧ ("javascript" : String) ≠ "auto")]
  refine ⟨rfl, ?_⟩
  show [Toast.info ("Auto-detected: " ++ capitalizeFirst "javascript")]
      = [Toast.info "Auto-detected: Javascript"]
  decide

/-- Witness for C1 at the concrete snippet `console.log(1)` starting from
the initial state. -/
theorem C1_witness :
    initState.language = "auto" ∧
    jsTrim "console.log(1)" ≠ "" ∧
    jsIncludes (jsToLower (jsTrim "console.log(1)")) "console.log" = true ∧
    pythonMarker (jsToLower (jsTrim "console.log(1)")) = false ∧
    javaMarker (jsToLower (jsTrim "console.log(1)")) = false ∧
    cppMarker (jsToLower (jsTrim "console.log(1)")) = false ∧
    cMarker (jsToLower (jsTrim "console.log(1)")) = false ∧
    typescriptMarker (jsToLower (jsTrim "console.log(1)")) = false ∧
    (handleCodeChange initState "console.log(1)").1.language = "javascript" :=
  ⟨by decide, by decide, by decide, by decide, by decide, by decide, by decide,
   by decide,
   (C1_detects_javascript initState "console.log(1)" (by decide) (by decide)
      (by decide) (by decide) (by decide) (by decide) (by decide) (by decide)).1⟩

/-- C2: client-side detection returns the single highest-priority matching
language of the fixed order Python, Java, C++, C, TypeScript, JavaScript
(`firstMatching` is that priority table read off the source); in
particular every snippet whose lowercased trimmed text contains
`"import "` is detected as Python. -/
theorem C2_priority_order (s : String) :
    detectLanguage (jsToLower (jsTrim s)) = firstMatching (jsToLower (jsTrim s)) ∧
    (jsIncludes (jsToLower (jsTrim s)) "import " = true →
      detectLanguage (jsToLower (jsTrim s)) = "python") := by
  generalize jsToLower (jsTrim s) = c
  constructor
  · unfold detectLanguage firstMatching languageMarkers
    cases h1 : pythonMarker c <;> cases h2 : javaMarker c <;>
      cases h3 : cppMarker c <;> cases h4 : cMarker c <;>
        cases h5 : typescriptMarker c <;> cases h6 : javascriptMarker c <;>
          simp [List.find?, h1, h2, h3, h4, h5, h6]
  · intro h
    have hpm : pythonMarker c = true := by
      unfold pythonMarker
      rw [h]
      simp
    unfold detectLanguage
    rw [hpm]
    simp

/-- Witness for C2 at a snippet that carries both the Python marker
`"import "` and the JavaScript marker `"const "`. -/
theorem C2_witness :
    jsIncludes (jsToLower (jsTrim "import x; const y = 1;")) "import " = true ∧
    detectLanguage (jsToLower (jsTrim "import x; const y = 1;")) = "python" :=
  ⟨by decide, (C2_priority_order "import x; const y = 1;").2 (by decide)⟩

/-- C3: on an empty or whitespace-only source `handleAnalyze` shows the
error toast and returns with no request issued and the state (so
`analysisResult`, `history` and `isAnalyzing`) untouched; on a non-empty
source the single `/api/analyze` request carries the trimmed source as its
`code` field. -/
theorem C3_empty_guard_and_request_body (st : AppState) (ov : Option String)
    (freshId : String) (result : Option AnalyzeResponse) :
    (jsTrim (ov.getD st.code) = "" →
      handleAnalyze st ov freshId result =
        (st, { noEffects with
                toasts := [Toast.error "Please paste or type some code before analyzing."] })) ∧
    (jsTrim (ov.getD st.code) ≠ "" →
      (handleAnalyze st ov freshId result).2.analyzeRequests =
        [{ code := jsTrim (ov.getD st.code), language := st.language }]) := by
  constructor
  · intro h
    simp [handleAnalyze, h]
  · intro h
    cases result <;> simp [handleAnalyze, h, noEffects]

/-- Witness for C3: the whitespace-only source `"  "` is rejected without a
request, and the source `" x "` yields a request whose code is `"x"`. -/
theorem C3_witness :
    (jsTrim (Option.getD (some "  ") initState.code) = "" ∧
      handleAnalyze initState (some "  ") "id0" none =
        (initState, { noEffects with
          toasts := [Toast.error "Please paste or type some code before analyzing."] })) ∧
    (jsTrim (Option.getD (some " x ") initState.code) ≠ "" ∧
      (handleAnalyze initState (some " x ") "id0" none).2.analyzeRequests =
        [{ code := jsTrim (Option.getD (some " x ") initState.code),
           language := initState.language }]) :=
  ⟨⟨by decide,
    (C3_empty_guard_and_request_body initState (some "  ") "id0" none).1 (by decide)⟩,
   ⟨by decide,
    (C3_empty_guard_and_request_body initState (some " x ") "id0" none).2 (by decide)⟩⟩

/-- C4: when the `/api/analyze` fetch fails (non-ok status or unreadable
body), `handleAnalyze` toasts "Failed to analyze code" and leaves
`analysisResult` and `history` as they were; `isAnalyzing` is `false`
afterwards whether the fetch failed or succeeded. -/
theorem C4_failure_leaves_state (st : AppState) (ov : Option String)
    (freshId : String) (h : jsTrim (ov.getD st.code) ≠ "") :
    (handleAnalyze st ov freshId none).1.analysisResult = st.analysisResult ∧
    (handleAnalyze st ov freshId none).1.history = st.history ∧
    Toast.error "Failed to analyze code" ∈ (handleAnalyze st ov freshId none).2.toasts ∧
    (handleAnalyze st ov freshId none).1.isAnalyzing = false ∧
    ∀ data : AnalyzeResponse,
      (handleAnalyze st ov freshId (some data)).1.isAnalyzing = false := by
  refine ⟨?_, ?_, ?_, ?_, ?_⟩
  · simp [handleAnalyze, h]
  · simp [handleAnalyze, h]
  · simp [handleAnalyze, h, noEffects]
  · simp [handleAnalyze, h]
  · intro data
    simp [handleAnalyze, h]

/-- Witness for C4 at the concrete source `"x"`. -/
theorem C4_witness :
    jsTrim (Option.getD none initState.code) ≠ "" ∧
    (handleAnalyze initState none "id0" none).1.history = initState.history :=
  ⟨by decide, (C4_failure_leaves_state initState none "id0" (by decide)).2.1⟩

/-- The source's "real fixes were applied" test
`changes.length && !(changes.length === 1 && changes[0] === "No changes")`
is the negation of "the change list is empty or exactly `["No changes"]`". -/
theorem noChangesCond (l : List String) :
    (l = [] ∨ l = ["No changes"]) ↔
      ¬(l.length ≠ 0 ∧ ¬(l.length = 1 ∧ l.headD "" = "No changes")) := by
  match l with
  | [] => simp
  | [a] => simp [List.headD]
  | a :: b :: rest => simp

/-- C5 counterexample: a successful `/api/fix` response whose `fixedCode`
is the whitespace-only string `" "`.  The editor code is replaced by it,
but `handleAnalyze` then rejects the blank code, so no `/api/analyze`
request is issued at all — in particular none carrying the trimmed
`fixedCode`. -/
theorem C5_counterexample :
    (handleFix { initState with code := "var x = 1" } "id1"
        (some { fixedCode := " ", changes := ["c1"], source := "gemini",
                language := "javascript" }) none).1.code = " " ∧
    (handleFix { initState with code := "var x = 1" } "id1"
        (some { fixedCode := " ", changes := ["c1"], source := "gemini",
                language := "javascript" }) none).2.analyzeRequests = [] ∧
    (handleFix { initState with code := "var x = 1" } "id1"
        (some { fixedCode := " ", changes := ["c1"], source := "gemini",
                language := "javascript" }) none).2.analyzeRequests ≠
      [{ code := jsTrim " ", language := "auto" }] := by
  refine ⟨?_, ?_, ?_⟩ <;> decide

/-- C5 (amended): on a successful `/api/fix` response whose `fixedCode` is
not whitespace-only, `handleFix` replaces the editor code with `fixedCode`
and immediately issues an `/api/analyze` request carrying the trimmed
`fixedCode` (not the pre-fix code); the toast shown for the fix is
"No fixes needed." exactly when the change list is empty or the single
entry `"No changes"`, and a success message otherwise. -/
theorem C5_fix_then_analyze (st : AppState) (freshId : String) (fr : FixResponse)
    (ar : Option AnalyzeResponse)
    (hfix : st.isFixing = false)
    (hcode : jsTrim st.code ≠ "")
    (hfc : jsTrim fr.fixedCode ≠ "") :
    (handleFix st freshId (some fr) ar).1.code = fr.fixedCode ∧
    (handleFix st freshId (some fr) ar).2.analyzeRequests =
      [{ code := jsTrim fr.fixedCode, language := st.language }] ∧
    ((fr.changes = [] ∨ fr.changes = ["No changes"]) →
      (handleFix st freshId (some fr) ar).2.toasts.get? 1 =
        some (Toast.info "No fixes needed.")) ∧
    (¬(fr.changes = [] ∨ fr.changes = ["No changes"]) →
      (handleFix st freshId (some fr) ar).2.toasts.get? 1 =
        some (Toast.success ("Fixed with " ++ fr.source ++ ": "
          ++ String.intercalate ", " fr.changes))) := by
  refine ⟨?_, ?_, ?_, ?_⟩
  · cases ar <;> simp [handleFix, handleAnalyze, hfix, hcode, hfc, noEffects] <;>
      split <;> simp
  · cases ar <;> simp [handleFix, handleAnalyze, hfix, hcode, hfc, noEffects]
  · intro h
    rcases h with h | h <;> cases ar <;>
      simp [handleFix, handleAnalyze, hfix, hcode, hfc, noEffects, h]
  · intro h
    have h1 : fr.changes ≠ [] := fun hh => h (Or.inl hh)
    have h2 : fr.changes ≠ ["No changes"] := fun hh => h (Or.inr hh)
    rcases hch : fr.changes with _ | ⟨a, _ | ⟨b, t⟩⟩
    · exact absurd hch h1
    · have ha : a ≠ "No changes" := by
        intro hEq
        rw [hEq] at hch
        exact h2 hch
      cases ar <;>
        simp [handleFix, handleAnalyze, hfix, hcode, hfc, noEffects, hch, ha]
    · cases ar <;>
        simp [handleFix, handleAnalyze, hfix, hcode, hfc, noEffects, hch]

/-- Witness for the amended C5 at a concrete state and fix response. -/
theorem C5_witness :
    ({ initState with code := "x" } : AppState).isFixing = false ∧
    jsTrim ({ initState with code := "x" } : AppState).code ≠ "" ∧
    jsTrim "y" ≠ "" ∧
    (handleFix { initState with code := "x" } "id2"
        (some { fixedCode := "y", changes := [], source := "local",
                language := "javascript" }) none).2.analyzeRequests =
      [{ code := jsTrim "y", language := "auto" }] :=
  ⟨by decide, by decide, by decide,
   (C5_fix_then_analyze { initState with code := "x" } "id2"
      { fixedCode := "y", changes := [], source := "local", language := "javascript" }
      none (by decide) (by decide) (by decide)).2.1⟩

/-- C6: with filter "All" the visible list is the input list; with a
severity filter it is exactly the issues of that severity, kept in their
original order (a sublist of the input); and the header's visible count
never exceeds its total count. -/
theorem C6_filtering (f : IssueFilter) (s : Severity) (issues : List Issue) :
    visibleIssues IssueFilter.all issues = issues ∧
    List.Sublist (visibleIssues (IssueFilter.sev s) issues) issues ∧
    (∀ i, i ∈ visibleIssues (IssueFilter.sev s) issues ↔
      i ∈ issues ∧ i.severity = s) ∧
    (issuesHeaderCounts f issues).1 ≤ (issuesHeaderCounts f issues).2 := by
  refine ⟨?_, ?_, ?_, ?_⟩
  · simp [visibleIssues]
  · exact List.filter_sublist issues
  · intro i
    simp [visibleIssues]
  · exact (List.filter_sublist issues).length_le

/-- C8: after a completed analysis the history holds at most 10 entries,
its first entry is the new analysis response paired with the fresh id,
distinctness of ids is preserved when the fresh id is new, and loading a
history entry only sets `analysisResult`, leaving the history itself
unchanged. -/
theorem C8_history_invariants (st : AppState) (ov : Option String)
    (freshId : String) (data : AnalyzeResponse)
    (hne : jsTrim (ov.getD st.code) ≠ "")
    (hfresh : freshId ∉ st.history.map HistoryItem.id)
    (hnodup : (st.history.map HistoryItem.id).Nodup) :
    (handleAnalyze st ov freshId (some data)).1.history.length ≤ 10 ∧
    (handleAnalyze st ov freshId (some data)).1.history.head? =
      some { id := freshId, resp := data } ∧
    ((handleAnalyze st ov freshId (some data)).1.history.map HistoryItem.id).Nodup ∧
    ∀ h : HistoryItem,
      loadHistoryItem (handleAnalyze st ov freshId (some data)).1 h =
        { (handleAnalyze st ov freshId (some data)).1 with
            analysisResult := some h.resp } ∧
      (loadHistoryItem (handleAnalyze st ov freshId (some data)).1 h).history =
        (handleAnalyze st ov freshId (some data)).1.history := by
  have hh : (handleAnalyze st ov freshId (some data)).1.history =
      (({ id := freshId, resp := data } : HistoryItem) :: st.history).take 10 := by
    simp [handleAnalyze, hne]
  refine ⟨?_, ?_, ?_, ?_⟩
  · rw [hh]
    simp
  · rw [hh, show (10 : Nat) = 9 + 1 from rfl, List.take_succ_cons]
    rfl
  · rw [hh]
    have hcons : ((({ id := freshId, resp := data } : HistoryItem) ::
        st.history).map HistoryItem.id).Nodup := by
      rw [List.map_cons]
      exact List.nodup_cons.mpr ⟨hfresh, hnodup⟩
    exact hcons.sublist
      (List.Sublist.map HistoryItem.id (List.take_sublist 10 _))
  · intro h
    exact ⟨rfl, rfl⟩

/-- Witness for C8: one analysis from the initial (empty) history. -/
theorem C8_witness :
    jsTrim (Option.getD (some "x") initState.code) ≠ "" ∧
    "u1" ∉ initState.history.map HistoryItem.id ∧
    (initState.history.map HistoryItem.id).Nodup ∧
    (handleAnalyze initState (some "x") "u1"
        (some { codeQualityScore := 80, issues := [],
                metrics := { cyclomaticComplexity := 1, readabilityScore := 2,
                             styleAdherence := 3 },
                language := "javascript", analyzedAt := "t",
                code := "x" })).1.history.head? =
      some { id := "u1",
             resp := { codeQualityScore := 80, issues := [],
                       metrics := { cyclomaticComplexity := 1,
                                    readabilityScore := 2, styleAdherence := 3 },
                       language := "javascript", analyzedAt := "t",
                       code := "x" } } :=
  ⟨by decide, by decide, by decide,
   (C8_history_invariants initState (some "x") "u1"
      { codeQualityScore := 80, issues := [],
        metrics := { cyclomaticComplexity := 1, readabilityScore := 2,
                     styleAdherence := 3 },
        language := "javascript", analyzedAt := "t", code := "x" }
      (by decide) (by decide) (by decide)).2.1⟩

/-- C9: a `handleFix` call entered while `isFixing` is `true` returns at
once — no request is sent, no toast other than the in-progress notice, the
state (in particular the code) is unchanged; entered with `isFixing`
`false`, the flag is `false` again once the call completes, on success,
failure, or early rejection alike. -/
theorem C9_fix_reentrancy (st : AppState) (freshId : String)
    (fr : Option FixResponse) (ar : Option AnalyzeResponse) :
    (st.isFixing = true →
      handleFix st freshId fr ar =
        (st, { noEffects with toasts := [Toast.info "Fix already in progress..."] })) ∧
    (st.isFixing = false → (handleFix st freshId fr ar).1.isFixing = false) := by
  constructor
  · intro h
    simp [handleFix, h]
  · intro h
    by_cases hc : jsTrim st.code = ""
    · simp [handleFix, h, hc]
    · cases fr with
      | none => simp [handleFix, h, hc]
      | some fr => cases ar <;> simp [handleFix, handleAnalyze, h, hc]

/-- Witness for C9: with a fix already in progress nothing happens, and a
completed fix attempt ends with `isFixing` `false`. -/
theorem C9_witness :
    (({ initState with isFixing := true } : AppState).isFixing = true ∧
      handleFix { initState with isFixing := true } "id3" none none =
        ({ initState with isFixing := true },
         { noEffects with toasts := [Toast.info "Fix already in progress..."] })) ∧
    (initState.isFixing = false ∧
      (handleFix initState "id3" none none).1.isFixing = false) :=
  ⟨⟨by decide,
    (C9_fix_reentrancy { initState with isFixing := true } "id3" none none).1
      (by decide)⟩,
   ⟨by decide, (C9_fix_reentrancy initState "id3" none none).2 (by decide)⟩⟩

/-- C10: `handleReset` restores the default snippet, clears the analysis
result and the scroll target, and leaves language, history, and the two
in-flight flags untouched. -/
theorem C10_reset_frame (st : AppState) :
    (handleReset st).1.code = defaultCode ∧
    (handleReset st).1.analysisResult = none ∧
    (handleReset st).1.scrollToLine = none ∧
    (handleReset st).1.language = st.language ∧
    (handleReset st).1.history = st.history ∧
    (handleReset st).1.isAnalyzing = st.isAnalyzing ∧
    (handleReset st).1.isFixing = st.isFixing ∧
    (handleReset st).2 = [Toast.info "Code reset to default"] :=
  ⟨rfl, rfl, rfl, rfl, rfl, rfl, rfl, rfl⟩

end CodeBoost
